import Mathlib

/-!
Verification of the mypdf repository: a PDF → speech conversion pipeline
(`src/pdf2tts.py`) exposed through a FastAPI upload endpoint (`src/service.py`).

The embedding models:
* a PDF document as its list of per-page extraction results
  (`none` models a page whose `page.get_text` call raises);
* `extract_text_from_pdf` including its Python-truthiness page-range
  resolution, its validation guard, the `doc.close()` discipline and the
  set of pages actually read;
* the orchestrator `pdf_to_mp3_with_ttsfm` (empty-text check, 50000-character
  ceiling, voice lookup, engine call and save, with the external collaborators
  modelled by boolean oracles);
* the `/convert` HTTP handler as an event trace recording temporary-directory
  creation/deletion, error responses and response-body transmission;
* the `pathlib` base-name / stem computations used to stage the upload.
-/

namespace Pdf2Tts

/-- A paginated document as seen through the document-parsing library:
`pages[i] = some t` means `doc[i].get_text("text")` returns `t`;
`pages[i] = none` means that call raises. -/
structure PdfDoc where
  pages : List (Option String)
  deriving DecidableEq

/-- Models `doc.page_count`. -/
def PdfDoc.page_count (d : PdfDoc) : Nat := d.pages.length

/-- Error taxonomy of the pipeline.  The first four arise from
`extract_text_from_pdf` and the checks in `pdf_to_mp3_with_ttsfm`
(`raise ValueError` sites); the others model exceptions of the external
collaborators (pymupdf, the ttsfm `Voice` enum lookup, the engine call,
`save_to_file`), none of which are `ValueError`s. -/
inductive PipelineError
  | invalidPageRange (total_pages : Nat)
  | pageError (page : Nat)
  | docOpenError
  | emptyText
  | textTooLarge (limit : Nat) (actual : Nat)
  | invalidVoice
  | engineError
  | audioWriteError
  deriving DecidableEq

/-- Models `sp = start_page - 1 if start_page else 0` (pdf2tts.py line 26):
Python truthiness makes both `None` and `0` fall back to `0`. -/
def resolve_sp : Option Int → Int
  | some n => if n ≠ 0 then n - 1 else 0
  | none => 0

/-- Models `ep = end_page if end_page else total_pages` (pdf2tts.py line 27):
Python truthiness makes both `None` and `0` fall back to `total_pages`. -/
def resolve_ep (e : Option Int) (total_pages : Int) : Int :=
  match e with
  | some n => if n ≠ 0 then n else total_pages
  | none => total_pages

/-- Models the extraction loop `for i in range(sp, ep): texts.append(doc[i].get_text)`
over the listed page indices.  Returns the indices whose text was successfully
produced together with either the collected texts or the index of the first
page whose extraction raised. -/
def readPages (doc : PdfDoc) : List Nat → List Nat × Except Nat (List String)
  | [] => ([], Except.ok [])
  | i :: rest =>
    match doc.pages[i]? with
    | some (some t) =>
      match readPages doc rest with
      | (rs, res) => (i :: rs, res.map (fun ts => t :: ts))
    | _ => ([], Except.error i)

/-- Outcome of one run of `extract_text_from_pdf`: the returned value or
raised error, whether `doc.close()` was executed before exiting, and which
pages had their text produced. -/
structure ExtractRun where
  result : Except PipelineError String
  closed : Bool
  pagesRead : List Nat

/-- Models `extract_text_from_pdf` (pdf2tts.py lines 17-38): resolve the
page range with Python truthiness, validate
`sp < 0 or sp >= total_pages or ep < 1 or ep > total_pages or sp >= ep`
(closing the document and raising `ValueError` on violation), then read pages
`[sp, ep)` in ascending order and join the texts with a blank line.
`doc.close()` is executed after the loop; a page failure mid-loop propagates
without reaching it (the source has no `try/finally`). -/
def extract_text_from_pdf (doc : PdfDoc) (start_page end_page : Option Int) : ExtractRun :=
  if resolve_sp start_page < 0 ∨ resolve_sp start_page ≥ (doc.page_count : Int) ∨
      resolve_ep end_page (doc.page_count : Int) < 1 ∨
      resolve_ep end_page (doc.page_count : Int) > (doc.page_count : Int) ∨
      resolve_sp start_page ≥ resolve_ep end_page (doc.page_count : Int) then
    { result := Except.error (PipelineError.invalidPageRange doc.page_count),
      closed := true, pagesRead := [] }
  else
    match readPages doc (List.range' (resolve_sp start_page).toNat
        ((resolve_ep end_page (doc.page_count : Int)).toNat -
          (resolve_sp start_page).toNat)) with
    | (reads, Except.ok texts) =>
      { result := Except.ok (String.intercalate "\n\n" texts),
        closed := true, pagesRead := reads }
    | (reads, Except.error i) =>
      { result := Except.error (PipelineError.pageError i),
        closed := false, pagesRead := reads }

/-- Models Python `not full_text.strip()` (pdf2tts.py line 59): true iff the
string is empty or every character is whitespace — equivalently, stripping
surrounding whitespace leaves the empty string. -/
def strip_is_empty (s : String) : Bool :=
  s.toList.all (fun c => c.isWhitespace)

/-- Oracles for the external collaborators used by `pdf_to_mp3_with_ttsfm`:
whether `Voice[voice.upper()]` finds a member, whether
`generate_speech_long_text` returns, and whether `resp.save_to_file`
succeeds. -/
structure TtsEnv where
  voice_ok : Bool
  engine_ok : Bool
  save_ok : Bool
  deriving DecidableEq

/-- Models pdf2tts.py lines 59-92 (the part of `pdf_to_mp3_with_ttsfm` after
extraction): the empty-text check, the 50000-character ceiling (reporting
limit and actual length), then the `Voice[...]` lookup, the engine call and
`save_to_file`, in source order. -/
def check_and_synthesize (full_text : String) (tts : TtsEnv) : Except PipelineError Unit :=
  if strip_is_empty full_text then Except.error PipelineError.emptyText
  else if full_text.length > 50000 then
    Except.error (PipelineError.textTooLarge 50000 full_text.length)
  else if tts.voice_ok = false then Except.error PipelineError.invalidVoice
  else if tts.engine_ok = false then Except.error PipelineError.engineError
  else if tts.save_ok = false then Except.error PipelineError.audioWriteError
  else Except.ok ()

/-- Models `pdf_to_mp3_with_ttsfm` (pdf2tts.py lines 41-92): open the
document (`doc_opt = none` models a `pymupdf.open` failure), extract, then
run the checks and the synthesis call. -/
def pdf_to_mp3_with_ttsfm (doc_opt : Option PdfDoc) (tts : TtsEnv)
    (start_page end_page : Option Int) : Except PipelineError Unit :=
  match doc_opt with
  | none => Except.error PipelineError.docOpenError
  | some doc =>
    match (extract_text_from_pdf doc start_page end_page).result with
    | Except.error e => Except.error e
    | Except.ok full_text => check_and_synthesize full_text tts

/-- Models the component split of POSIX `pathlib` parsing: split a character
list on `'/'`. -/
def split_slash : List Char → List (List Char)
  | [] => [[]]
  | c :: rest =>
    if c = '/' then [] :: split_slash rest
    else
      match split_slash rest with
      | [] => [[c]]
      | g :: gs => (c :: g) :: gs

/-- Models `PurePosixPath(s).name` (used at service.py line 32): parse the
path into components, dropping empty and `"."` components (CPython
`pathlib` keeps `".."`), and take the final component, or `""` when there
is none. -/
def path_name (s : String) : String :=
  match ((split_slash s.toList).filter
      (fun c => decide (c ≠ [] ∧ c ≠ ['.']))).getLast? with
  | some c => String.mk c
  | none => ""

/-- Index of the last `'.'` in a character list, if any
(models `name.rfind('.')` from CPython `PurePath.stem`). -/
def last_dot_index : List Char → Option Nat
  | [] => none
  | c :: rest =>
    match last_dot_index rest with
    | some i => some (i + 1)
    | none => if c = '.' then some 0 else none

/-- Models `PurePath.stem` applied to a final path component (service.py
line 33 uses `pdf_path.stem`): with `i = name.rfind('.')`, return
`name[:i]` when `0 < i < len(name) - 1`, else `name` unchanged. -/
def path_stem (nm : String) : String :=
  match last_dot_index nm.toList with
  | some i =>
    if 0 < i ∧ i < nm.toList.length - 1 then String.mk (nm.toList.take i) else nm
  | none => nm

/-- Models Python `s or d` for an optional string: `None` and `""` are
falsy and fall back to the default (service.py line 32:
`pdf.filename or "input.pdf"`). -/
def py_or (s : Option String) (d : String) : String :=
  match s with
  | some v => if v = "" then d else v
  | none => d

/-- The single path component the upload is staged under:
`Path(pdf.filename or "input.pdf").name` (service.py line 32). -/
def staged_component (filename : Option String) : String :=
  path_name (py_or filename "input.pdf")

/-- Models `pdf_path.name` where `pdf_path = temp_dir / staged_component`:
joining with the empty string leaves `temp_dir` unchanged in `pathlib`, so
the name falls back to the temporary directory's own base name `tn`. -/
def pdf_path_name (tn : String) (filename : Option String) : String :=
  if staged_component filename = "" then tn else staged_component filename

/-- The output audio file name `f"{pdf_path.stem}.mp3"`
(service.py lines 33 and 63). -/
def output_filename (tn : String) (filename : Option String) : String :=
  path_stem (pdf_path_name tn filename) ++ ".mp3"

/-- A single path component `c` makes `dir / c` a path lying strictly and
directly inside `dir`: it must be a real file name, not empty (which leaves
`dir` itself), not a dot component, and contain no separator. -/
def safe_component (c : String) : Prop :=
  c ≠ "" ∧ c ≠ "." ∧ c ≠ ".." ∧ '/' ∉ c.toList

instance (c : String) : Decidable (safe_component c) := by
  unfold safe_component
  infer_instance

/-- Filesystem / response events observable during one `/convert` request:
`tempfile.mkdtemp`, `shutil.rmtree(temp_dir)`, producing an error response
(`HTTPException`), and the transmission of the full success-response body. -/
inductive Event
  | mkdtemp
  | rmtree
  | errorResponse (status : Nat)
  | bodySent
  deriving DecidableEq

/-- Number of occurrences of an event in a trace. -/
def count_event (ev : Event) (tr : List Event) : Nat :=
  (tr.filter (fun x => decide (x = ev))).length

/-- The HTTP outcome of a `/convert` request: an error response with a
status code, or a 200 `FileResponse` carrying the derived audio filename. -/
inductive HttpResult
  | httpError (status : Nat)
  | fileResponse (filename : String)
  deriving DecidableEq

/-- One run of the `/convert` handler: its event trace in order, and its
HTTP outcome. -/
structure ConvertRun where
  trace : List Event
  result : HttpResult

/-- All external behavior relevant to one `/convert` request: the uploaded
content type and filename, the base name assigned by `mkdtemp`, whether
`pdf.read()`/`write_bytes` succeed, the result of `pymupdf.open` on the
staged file, the synthesis oracles and the requested page range. -/
structure RequestEnv where
  content_type : Option String
  filename : Option String
  temp_name : String
  upload_ok : Bool
  doc : Option PdfDoc
  tts : TtsEnv
  start_page : Option Int
  end_page : Option Int

/-- Models the membership test at service.py line 25:
`pdf.content_type not in ("application/pdf", "application/octet-stream", None)`
(negated: an accepted content type). -/
def accepted_content_type (ct : Option String) : Bool :=
  decide (ct = some "application/pdf") ||
    decide (ct = some "application/octet-stream") || decide (ct = none)

/-- Which pipeline failures are Python `ValueError`s: the three `raise
ValueError` sites of pdf2tts.py (invalid page range, empty text, oversized
text).  pymupdf open/page failures, the `Voice` `KeyError`, engine errors
and `save_to_file` I/O errors are not `ValueError`s. -/
def PipelineError.is_value_error : PipelineError → Bool
  | PipelineError.invalidPageRange _ => true
  | PipelineError.emptyText => true
  | PipelineError.textTooLarge _ _ => true
  | _ => false

/-- Status mapping of service.py lines 51-56: `except ValueError` → 400,
`except Exception` → 500. -/
def error_status (e : PipelineError) : Nat :=
  if e.is_value_error then 400 else 500

/-- Models the `/convert` handler `convert_pdf` (service.py lines 16-66)
together with the framework semantics it relies on: an `HTTPException`
produces an error response after any code run before the `raise`, and a
`FileResponse` with registered background tasks sends the full body and
then runs the tasks (Starlette runs `response.background` after the body
is transmitted).  The trace records, in order, the temporary-directory
creation, its deletions, the error response or the body transmission. -/
def convert_pdf (env : RequestEnv) : ConvertRun :=
  if accepted_content_type env.content_type = false then
    { trace := [Event.errorResponse 400], result := HttpResult.httpError 400 }
  else if env.upload_ok = false then
    { trace := [Event.mkdtemp, Event.rmtree, Event.errorResponse 400],
      result := HttpResult.httpError 400 }
  else
    match pdf_to_mp3_with_ttsfm env.doc env.tts env.start_page env.end_page with
    | Except.error e =>
      { trace := [Event.mkdtemp, Event.rmtree, Event.errorResponse (error_status e)],
        result := HttpResult.httpError (error_status e) }
    | Except.ok _ =>
      { trace := [Event.mkdtemp, Event.bodySent, Event.rmtree],
        result := HttpResult.fileResponse (output_filename env.temp_name env.filename) }

/-- A string of 50001 space characters. -/
def spaces_50001 : String := String.mk (List.replicate 50001 ' ')

/-- A string of 50001 letters. -/
def letters_50001 : String := String.mk (List.replicate 50001 'a')

/-- C3: an absent `start` resolves to `sp = 0` and an absent `end` to
`ep = T`, and extraction raises the invalid-page-range error (carrying the
total page count) exactly when the resolved zero-based half-open bounds
violate `0 <= sp < T`, `1 <= ep <= T`, `sp < ep`; when they hold, the range
error is not raised. -/
theorem page_range_resolution (doc : PdfDoc) (s e : Option Int) :
    resolve_sp none = 0 ∧
    resolve_ep none (doc.page_count : Int) = (doc.page_count : Int) ∧
    ((extract_text_from_pdf doc s e).result =
        Except.error (PipelineError.invalidPageRange doc.page_count) ↔
      ¬(0 ≤ resolve_sp s ∧ resolve_sp s < (doc.page_count : Int) ∧
        1 ≤ resolve_ep e (doc.page_count : Int) ∧
        resolve_ep e (doc.page_count : Int) ≤ (doc.page_count : Int) ∧
        resolve_sp s < resolve_ep e (doc.page_count : Int))) := by
  refine ⟨rfl, rfl, ?_⟩
  unfold extract_text_from_pdf
  split
  next h => exact iff_of_true rfl (by omega)
  next h =>
    split
    next heq => exact iff_of_false (by simp) (by omega)
    next heq => exact iff_of_false (by simp) (by omega)

/-- C2 (amended): for a document with `T` pages and a requested pair
`(start, end)` with `start ≠ 0` and `end ≠ 0` (zero is falsy in the
implementation and is treated as an absent bound), whenever `start < 0`,
or `end > T`, or `start > end`, extraction fails with the
invalid-page-range error, the handle is closed, and no page text is
produced before the failure. -/
theorem invalid_range_rejected (doc : PdfDoc) (s e : Int)
    (hs : s ≠ 0) (he : e ≠ 0)
    (h : s < 0 ∨ e > (doc.page_count : Int) ∨ s > e) :
    extract_text_from_pdf doc (some s) (some e) =
      { result := Except.error (PipelineError.invalidPageRange doc.page_count),
        closed := true, pagesRead := [] } := by
  have hsp : resolve_sp (some s) = s - 1 := by simp [resolve_sp, hs]
  have hep : resolve_ep (some e) (doc.page_count : Int) = e := by simp [resolve_ep, he]
  unfold extract_text_from_pdf
  rw [hsp, hep, if_pos (by omega)]

/-- Witness for `invalid_range_rejected` at a one-page document with
`start = -1`, `end = 1`. -/
theorem invalid_range_rejected_witness :
    extract_text_from_pdf ⟨[some "x"]⟩ (some (-1)) (some 1) =
      { result := Except.error (PipelineError.invalidPageRange 1),
        closed := true, pagesRead := [] } :=
  invalid_range_rejected ⟨[some "x"]⟩ (-1) 1 (by decide) (by decide)
    (Or.inl (by decide))

/-- Counterexample to C2 as stated: `start = 0` satisfies `start <= 0` but
is falsy and treated as absent, so extraction of a 1-page document with
`(start, end) = (0, 1)` succeeds; likewise `(start, end) = (2, 0)` has
`start > end` but `end = 0` is treated as absent and extraction of a
2-page document succeeds. -/
theorem invalid_range_claim_counterexample :
    (extract_text_from_pdf ⟨[some "x"]⟩ (some 0) (some 1)).result =
        Except.ok "x" ∧
    (extract_text_from_pdf ⟨[some "x", some "y"]⟩ (some 2) (some 0)).result =
        Except.ok "y" :=
  ⟨rfl, rfl⟩

/-- Reading pages of a document whose pages all extract successfully
collects exactly the texts of the listed indices, in order. -/
theorem readPages_all_some (l : List String) :
    ∀ (n a : Nat), a + n ≤ l.length →
      readPages ⟨l.map some⟩ (List.range' a n) =
        (List.range' a n,
          Except.ok ((List.range' a n).map (fun i => l.getD i ""))) := by
  intro n
  induction n with
  | zero => intro a _; rfl
  | succ n ih =>
    intro a h
    have ha : a < l.length := by omega
    have h1 : List.range' a (n + 1) = a :: List.range' (a + 1) n := by
      simp [List.range']
    rw [h1]
    unfold readPages
    have h2 : (⟨l.map some⟩ : PdfDoc).pages[a]? = some (some l[a]) := by
      show (l.map some)[a]? = _
      rw [List.getElem?_map, List.getElem?_eq_getElem ha]
      rfl
    rw [h2, ih (a + 1) (by omega)]
    simp [Except.map, List.getD, List.getElem?_eq_getElem ha]

/-- C4: for a document whose pages all extract successfully and any
`1 ≤ start ≤ end ≤ T`, extraction over `[start, end]` returns exactly the
texts of pages `start..end` (zero-based indices `start-1 .. end-1`), in
ascending order, joined by a blank line, and reads no page outside that
range. -/
theorem extract_in_range (l : List String) (s e : Nat)
    (h1 : 1 ≤ s) (h2 : s ≤ e) (h3 : e ≤ l.length) :
    (extract_text_from_pdf ⟨l.map some⟩ (some (s : Int)) (some (e : Int))).result =
      Except.ok (String.intercalate "\n\n"
        ((List.range' (s - 1) (e - (s - 1))).map (fun i => l.getD i ""))) ∧
    (extract_text_from_pdf ⟨l.map some⟩ (some (s : Int)) (some (e : Int))).pagesRead =
      List.range' (s - 1) (e - (s - 1)) := by
  have hs0 : (s : Int) ≠ 0 := by omega
  have he0 : (e : Int) ≠ 0 := by omega
  have hpc : (⟨l.map some⟩ : PdfDoc).page_count = l.length := by
    simp [PdfDoc.page_count]
  have hsp : resolve_sp (some (s : Int)) = (s : Int) - 1 := by
    simp [resolve_sp, hs0]
  have ht1 : ((s : Int) - 1).toNat = s - 1 := by omega
  have ht2 : ((e : Int)).toNat = e := by omega
  unfold extract_text_from_pdf
  rw [hpc, hsp]
  have hep : resolve_ep (some (e : Int)) (l.length : Int) = (e : Int) := by
    simp [resolve_ep, he0]
  rw [hep, if_neg (by omega), ht1, ht2,
    readPages_all_some l (e - (s - 1)) (s - 1) (by omega)]
  exact ⟨rfl, rfl⟩

/-- Witness for `extract_in_range`: pages 2..3 of a three-page document. -/
theorem extract_in_range_witness :
    (extract_text_from_pdf ⟨["a", "b", "c"].map some⟩ (some 2) (some 3)).result =
      Except.ok "b\n\nc" ∧
    (extract_text_from_pdf ⟨["a", "b", "c"].map some⟩ (some 2) (some 3)).pagesRead =
      [1, 2] :=
  ⟨((extract_in_range ["a", "b", "c"] 2 3 (by decide) (by decide) (by decide)).1).trans
      rfl,
   ((extract_in_range ["a", "b", "c"] 2 3 (by decide) (by decide) (by decide)).2).trans
      rfl⟩

/-- C5 (amended): the document handle is closed on a successful return and
on a page-range validation failure; but when a failure is raised while
extracting a page's text mid-iteration, the error propagates without the
handle being closed (the source has no `try/finally` around the loop). -/
theorem extract_close_discipline (doc : PdfDoc) (s e : Option Int) :
    (∀ t, (extract_text_from_pdf doc s e).result = Except.ok t →
      (extract_text_from_pdf doc s e).closed = true) ∧
    (∀ T, (extract_text_from_pdf doc s e).result =
        Except.error (PipelineError.invalidPageRange T) →
      (extract_text_from_pdf doc s e).closed = true) ∧
    (∀ i, (extract_text_from_pdf doc s e).result =
        Except.error (PipelineError.pageError i) →
      (extract_text_from_pdf doc s e).closed = false) := by
  unfold extract_text_from_pdf
  split
  · exact ⟨fun t h => rfl, fun T h => rfl, fun i h => by simp at h⟩
  · split
    · exact ⟨fun t h => rfl, fun T h => by simp at h, fun i h => by simp at h⟩
    · exact ⟨fun t h => by simp at h, fun T h => by simp at h, fun i h => rfl⟩

/-- Counterexample to C5 as stated: on a one-page document whose page text
extraction raises, the error propagates mid-iteration and the handle is
left open (`closed = false`). -/
theorem handle_leak_counterexample :
    (extract_text_from_pdf ⟨[none]⟩ none none).result =
        Except.error (PipelineError.pageError 0) ∧
    (extract_text_from_pdf ⟨[none]⟩ none none).closed = false :=
  ⟨rfl, rfl⟩

/-- Witness for `extract_close_discipline`: a successful run closes the
handle; a run failing on the second page leaves it open. -/
theorem extract_close_discipline_witness :
    (extract_text_from_pdf ⟨[some "x"]⟩ none none).closed = true ∧
    (extract_text_from_pdf ⟨[some "hi", none]⟩ none none).closed = false :=
  ⟨(extract_close_discipline ⟨[some "x"]⟩ none none).1 "x" rfl,
   (extract_close_discipline ⟨[some "hi", none]⟩ none none).2.2 1 rfl⟩

/-- Helper: `List.all` over a replicated element is decided by the element. -/
theorem all_replicate_of_true {p : Char → Bool} {c : Char} (h : p c = true) :
    ∀ n, (List.replicate n c).all p = true := by
  intro n
  induction n with
  | zero => rfl
  | succ n ih => simp [List.replicate, h, ih]

/-- Helper: `List.all` over a nonempty replicated list of a refuted element
is false. -/
theorem all_replicate_of_false {p : Char → Bool} {c : Char} (h : p c = false) :
    ∀ n, (List.replicate (n + 1) c).all p = false := by
  intro n
  simp [List.replicate, h]


/-- C6 (amended): for every extracted text that is not empty/whitespace-only
(the empty-text check precedes the size check), the synthesis operation is
rejected with the oversized-text error — reporting the 50000-character
limit and the actual length — if and only if the length exceeds 50000. -/
theorem size_ceiling (t : String) (tts : TtsEnv)
    (h : strip_is_empty t = false) :
    check_and_synthesize t tts =
        Except.error (PipelineError.textTooLarge 50000 t.length) ↔
      t.length > 50000 := by
  unfold check_and_synthesize
  rw [h]
  by_cases hl : t.length > 50000
  · simp [hl]
  · simp only [Bool.false_eq_true, if_false, if_neg hl]
    constructor
    · intro hcontra
      split at hcontra <;> simp_all
      split at hcontra <;> simp_all
      split at hcontra <;> simp_all
    · intro hcontra
      exact absurd hcontra hl

/-- Counterexample to C6 as stated: a text of 50001 space characters has
length greater than 50000 yet is rejected with the empty-text error, not
the oversized-text error, because the whitespace check runs first. -/
theorem size_ceiling_counterexample :
    spaces_50001.length = 50001 ∧
    check_and_synthesize spaces_50001 ⟨true, true, true⟩ =
      Except.error PipelineError.emptyText := by
  constructor
  · show (List.replicate 50001 ' ').length = 50001
    rw [List.length_replicate]
  · have h : strip_is_empty spaces_50001 = true := by
      show (String.mk (List.replicate 50001 ' ')).toList.all _ = true
      exact all_replicate_of_true rfl 50001
    unfold check_and_synthesize
    rw [h, if_pos rfl]

/-- Witness for `size_ceiling`: 50001 letters trip the ceiling with the
limit and actual length reported. -/
theorem size_ceiling_witness :
    strip_is_empty letters_50001 = false ∧
    check_and_synthesize letters_50001 ⟨true, true, true⟩ =
      Except.error (PipelineError.textTooLarge 50000 letters_50001.length) := by
  have hf : strip_is_empty letters_50001 = false := by
    show (String.mk (List.replicate 50001 'a')).toList.all _ = false
    exact all_replicate_of_false rfl 50000
  have hlen : letters_50001.length = 50001 := by
    show (List.replicate 50001 'a').length = 50001
    rw [List.length_replicate]
  exact ⟨hf, (size_ceiling letters_50001 ⟨true, true, true⟩ hf).mpr (by omega)⟩

/-- C7: a text that is empty or consists only of whitespace always fails
the synthesis operation with the empty-text error, whatever the external
collaborators would do; a text that is non-empty after trimming never
raises the empty-text error. -/
theorem empty_text_rejection (t : String) (tts : TtsEnv) :
    (strip_is_empty t = true →
      check_and_synthesize t tts = Except.error PipelineError.emptyText) ∧
    (strip_is_empty t = false →
      check_and_synthesize t tts ≠ Except.error PipelineError.emptyText) := by
  constructor
  · intro h
    unfold check_and_synthesize
    rw [h, if_pos rfl]
  · intro h
    unfold check_and_synthesize
    rw [h]
    intro hcontra
    split at hcontra <;> simp_all
    split at hcontra <;> simp_all
    split at hcontra <;> simp_all
    split at hcontra <;> simp_all
    split at hcontra <;> simp_all

/-- Witness for `empty_text_rejection`: a single space is rejected as
empty; a single letter is not. -/
theorem empty_text_rejection_witness :
    check_and_synthesize " " ⟨true, true, true⟩ =
        Except.error PipelineError.emptyText ∧
    check_and_synthesize "a" ⟨true, true, true⟩ ≠
        Except.error PipelineError.emptyText :=
  ⟨(empty_text_rejection " " ⟨true, true, true⟩).1 (by decide),
   (empty_text_rejection "a" ⟨true, true, true⟩).2 (by decide)⟩

/-- C1: per request, the temporary directory is created at most once; the
number of deletions equals the number of creations (no leak, no double
delete); every failure path that created the directory deletes it
immediately before the error response; the success path defers the single
deletion until after the full response body has been transmitted. -/
theorem temp_dir_lifecycle (env : RequestEnv) :
    count_event Event.mkdtemp (convert_pdf env).trace ≤ 1 ∧
    count_event Event.rmtree (convert_pdf env).trace =
      count_event Event.mkdtemp (convert_pdf env).trace ∧
    ((convert_pdf env).trace = [Event.errorResponse 400] ∨
      (∃ s, (convert_pdf env).trace =
          [Event.mkdtemp, Event.rmtree, Event.errorResponse s] ∧
        (convert_pdf env).result = HttpResult.httpError s) ∨
      ((convert_pdf env).trace = [Event.mkdtemp, Event.bodySent, Event.rmtree] ∧
        ∃ fn, (convert_pdf env).result = HttpResult.fileResponse fn)) := by
  unfold convert_pdf
  split
  · exact ⟨Nat.zero_le 1, rfl, Or.inl rfl⟩
  · split
    · exact ⟨Nat.le_refl 1, rfl, Or.inr (Or.inl ⟨400, rfl, rfl⟩)⟩
    · split
      · exact ⟨Nat.le_refl 1, rfl, Or.inr (Or.inl ⟨_, rfl, rfl⟩)⟩
      · exact ⟨Nat.le_refl 1, rfl, Or.inr (Or.inr ⟨rfl, _, rfl⟩)⟩

/-- C8: a request with a content type other than `application/pdf`,
`application/octet-stream` or absent is answered with HTTP 400 and no
temporary directory is ever created; a request with an accepted content
type creates exactly one temporary directory. -/
theorem content_type_gate (env : RequestEnv) :
    (accepted_content_type env.content_type = false →
      convert_pdf env =
        { trace := [Event.errorResponse 400],
          result := HttpResult.httpError 400 }) ∧
    (accepted_content_type env.content_type = true →
      count_event Event.mkdtemp (convert_pdf env).trace = 1) := by
  constructor
  · intro h
    unfold convert_pdf
    rw [if_pos h]
  · intro h
    unfold convert_pdf
    rw [if_neg (by simp [h])]
    split
    · rfl
    · split
      · rfl
      · rfl

/-- Witness for `content_type_gate`: a `text/plain` upload is rejected with
no directory created; an `application/pdf` upload creates one. -/
theorem content_type_gate_witness :
    convert_pdf
        { content_type := some "text/plain", filename := some "x.txt",
          temp_name := "pdf2tts_t", upload_ok := true, doc := none,
          tts := ⟨true, true, true⟩, start_page := none, end_page := none } =
      { trace := [Event.errorResponse 400], result := HttpResult.httpError 400 } ∧
    count_event Event.mkdtemp
      (convert_pdf
        { content_type := some "application/pdf", filename := some "x.pdf",
          temp_name := "pdf2tts_t", upload_ok := true, doc := none,
          tts := ⟨true, true, true⟩, start_page := none, end_page := none }).trace = 1 :=
  ⟨(content_type_gate _).1 (by decide), (content_type_gate _).2 (by decide)⟩

/-- C9: when a request with an accepted content type stages successfully
and the pipeline then fails, an invalid page range, empty extracted text or
oversized extracted text yields HTTP 400, and every other failure
(document-open, mid-page extraction, invalid voice, engine, audio-write)
yields HTTP 500; in both cases the temporary directory is deleted before
the error response is produced. -/
theorem failure_status_mapping (env : RequestEnv) (e : PipelineError)
    (h1 : accepted_content_type env.content_type = true)
    (h2 : env.upload_ok = true)
    (h3 : pdf_to_mp3_with_ttsfm env.doc env.tts env.start_page env.end_page =
      Except.error e) :
    convert_pdf env =
      { trace := [Event.mkdtemp, Event.rmtree, Event.errorResponse (error_status e)],
        result := HttpResult.httpError (error_status e) } ∧
    error_status e = (match e with
      | PipelineError.invalidPageRange _ => 400
      | PipelineError.emptyText => 400
      | PipelineError.textTooLarge _ _ => 400
      | _ => 500) := by
  constructor
  · unfold convert_pdf
    rw [if_neg (by simp [h1]), if_neg (by simp [h2]), h3]
  · cases e <;> rfl

/-- Witness for `failure_status_mapping`: a request for pages 5..3 of a
one-page document maps the invalid-page-range failure to HTTP 400 after
deleting the directory. -/
theorem failure_status_mapping_witness :
    convert_pdf
        { content_type := some "application/pdf", filename := some "a.pdf",
          temp_name := "pdf2tts_t", upload_ok := true, doc := some ⟨[some "hi"]⟩,
          tts := ⟨true, true, true⟩, start_page := some 5, end_page := some 3 } =
      { trace := [Event.mkdtemp, Event.rmtree, Event.errorResponse 400],
        result := HttpResult.httpError 400 } :=
  (failure_status_mapping
    { content_type := some "application/pdf", filename := some "a.pdf",
      temp_name := "pdf2tts_t", upload_ok := true, doc := some ⟨[some "hi"]⟩,
      tts := ⟨true, true, true⟩, start_page := some 5, end_page := some 3 }
    (PipelineError.invalidPageRange 1) (by decide) rfl rfl).1

/-- Helper: a member of a list's `getLast?` is a member of the list. -/
theorem mem_of_getLast_some {α : Type} {l : List α} {a : α}
    (h : l.getLast? = some a) : a ∈ l := by
  have h2 : a ∈ l.getLast? := by rw [h]; rfl
  rcases List.mem_getLast?_eq_getLast h2 with ⟨hne, heq⟩
  rw [heq]
  exact List.getLast_mem hne

/-- No component produced by `split_slash` contains the separator. -/
theorem split_slash_no_slash : ∀ (l : List Char) (g : List Char),
    g ∈ split_slash l → '/' ∉ g := by
  intro l
  induction l with
  | nil =>
    intro g hg
    simp only [split_slash, List.mem_singleton] at hg
    subst hg
    simp
  | cons c rest ih =>
    intro g hg
    unfold split_slash at hg
    by_cases hc : c = '/'
    · rw [if_pos hc] at hg
      rcases List.mem_cons.mp hg with h | h
      · subst h; simp
      · exact ih g h
    · rw [if_neg hc] at hg
      rcases he : split_slash rest with _ | ⟨g0, gs⟩
      · rw [he] at hg
        rcases List.mem_cons.mp hg with h | h
        · subst h
          intro hmem
          rcases List.mem_singleton.mp hmem with h2
          exact hc h2.symm
        · simp at h
      · rw [he] at hg
        rcases List.mem_cons.mp hg with h | h
        · subst h
          intro hmem
          rcases List.mem_cons.mp hmem with h2 | h2
          · exact hc h2.symm
          · exact ih g0 (by rw [he]; exact List.mem_cons_self g0 gs) h2
        · exact ih g (by rw [he]; exact List.mem_cons_of_mem g0 h)

/-- `path_name` never contains a separator. -/
theorem path_name_no_slash (s : String) : '/' ∉ (path_name s).toList := by
  unfold path_name
  rcases hg : ((split_slash s.toList).filter
      (fun c => decide (c ≠ [] ∧ c ≠ ['.']))).getLast? with _ | c
  · simp
  · have hmem := mem_of_getLast_some hg
    have hin := (List.mem_filter.mp hmem).1
    exact split_slash_no_slash s.toList c hin

/-- `path_name` never yields the bare dot component (CPython drops `"."`
components while parsing). -/
theorem path_name_ne_dot (s : String) : path_name s ≠ "." := by
  unfold path_name
  rcases hg : ((split_slash s.toList).filter
      (fun c => decide (c ≠ [] ∧ c ≠ ['.']))).getLast? with _ | c
  · simp
  · have hpred := (List.mem_filter.mp (mem_of_getLast_some hg)).2
    have hne : c ≠ ['.'] := by
      intro hx
      rw [hx] at hpred
      simp at hpred
    intro hcontra
    apply hne
    have := congrArg String.toList hcontra
    exact this

/-- Every character of `path_stem nm` is a character of `nm`. -/
theorem path_stem_subset (nm : String) (a : Char) :
    a ∈ (path_stem nm).toList → a ∈ nm.toList := by
  unfold path_stem
  split
  · split
    · intro h
      exact List.mem_of_mem_take h
    · exact id
  · exact id

/-- Appending strings concatenates their character lists. -/
theorem string_toList_append (a b : String) :
    (a ++ b).toList = a.toList ++ b.toList := by
  cases a
  cases b
  rfl

/-- The name of the staged input path is separator-free whenever the
temporary directory's own base name is. -/
theorem pdf_path_name_no_slash (tn : String) (fn : Option String)
    (htn : '/' ∉ tn.toList) : '/' ∉ (pdf_path_name tn fn).toList := by
  unfold pdf_path_name
  split
  · exact htn
  · exact path_name_no_slash _

/-- C10 (amended): the staged input path is the temporary directory joined
with exactly `Path(filename or "input.pdf").name` — a single separator-free
component, never `"."`, defaulting to `input.pdf` when no filename is
supplied — and the derived output file always lies directly inside the
temporary directory.  The staged file lies directly inside the temporary
directory whenever that base name is neither empty nor `".."`; a filename
whose base name is `".."` (e.g. `".."` itself) escapes to the parent
directory, and an empty base name (e.g. filename `"/"`) makes the staged
path the temporary directory itself. -/
theorem staged_path_characterization (fn : Option String) (tn : String)
    (htn : '/' ∉ tn.toList) :
    (fn = none → staged_component fn = "input.pdf") ∧
    '/' ∉ (staged_component fn).toList ∧
    staged_component fn ≠ "." ∧
    (staged_component fn ≠ "" → staged_component fn ≠ ".." →
      safe_component (staged_component fn)) ∧
    safe_component (output_filename tn fn) := by
  refine ⟨?_, path_name_no_slash _, path_name_ne_dot _, ?_, ?_⟩
  · intro h
    subst h
    rfl
  · intro h1 h2
    exact ⟨h1, path_name_ne_dot _, h2, path_name_no_slash _⟩
  · have e1 : (".mp3" : String).length = 4 := rfl
    refine ⟨?_, ?_, ?_, ?_⟩
    · intro h
      have h2 := congrArg String.length h
      unfold output_filename at h2
      rw [String.length_append, e1] at h2
      have e2 : ("" : String).length = 0 := rfl
      rw [e2] at h2
      omega
    · intro h
      have h2 := congrArg String.length h
      unfold output_filename at h2
      rw [String.length_append, e1] at h2
      have e2 : ("." : String).length = 1 := rfl
      rw [e2] at h2
      omega
    · intro h
      have h2 := congrArg String.length h
      unfold output_filename at h2
      rw [String.length_append, e1] at h2
      have e2 : (".." : String).length = 2 := rfl
      rw [e2] at h2
      omega
    · show '/' ∉ (path_stem (pdf_path_name tn fn) ++ ".mp3").toList
      rw [string_toList_append]
      intro hmem
      rcases List.mem_append.mp hmem with h | h
      · exact pdf_path_name_no_slash tn fn htn (path_stem_subset _ _ h)
      · simp at h

/-- Witness for `staged_path_characterization`: a nested filename is staged
under its safe base name and the output name is safe as well. -/
theorem staged_path_characterization_witness :
    staged_component (some "a/b/evil.pdf") = "evil.pdf" ∧
    safe_component (staged_component (some "a/b/evil.pdf")) ∧
    safe_component (output_filename "pdf2tts_t" (some "a/b/evil.pdf")) := by
  have h := staged_path_characterization (some "a/b/evil.pdf") "pdf2tts_t" (by decide)
  exact ⟨by decide, h.2.2.2.1 (by decide) (by decide), h.2.2.2.2⟩

/-- Counterexample to C10 as stated: an uploaded filename of `".."` has
pathlib base name `".."`, so the staged path `temp_dir / ".."` is the
parent-traversal component and does not lie directly inside the request's
temporary directory. -/
theorem staged_path_counterexample :
    staged_component (some "..") = ".." ∧ ¬ safe_component ".." := by
  exact ⟨by decide, by decide⟩

end Pdf2Tts
